import Mathlib

set_option maxRecDepth 8000

/-!
Verification of the dual-peer recording controller (League/OBS bridge).

Shallow embedding of the core components:
* `api.py`    — LCUApi: event-handler registry, per-frame receive-loop step,
                synchronous GET/POST requests.
* `auth.py`   — LeagueClientAuth: credential state, connection-callback
                registration.
* `obs_client.py` — OBSClient: recording commands, profile commands,
                connection-handler registration, recording-state event.
* `logic.py`  — GameTracker: phase mapping, gameflow/champ-select handlers,
                dodge handling, startup seeding.

Side effects (downstream notifications, RPC calls, callback invocations) are
made explicit as effect traces; fallible operations return `Except`.
Callbacks are identified by numeric handles.
-/

namespace OBSLeague

/-! ### JSON values (results of Python `json.loads`) -/

/-- A JSON value as produced by Python `json.loads`: object keys are strings,
numbers are modelled as integers (the frames relevant here carry integer
opcodes). -/
inductive Json where
  | null : Json
  | bool (b : Bool) : Json
  | num (n : Int) : Json
  | str (s : String) : Json
  | arr (elems : List Json) : Json
  | obj (fields : List (String × Json)) : Json

/-- The empty JSON object `{}`. -/
def emptyObj : Json := Json.obj []

/-- Python `len(x)`: defined for `str`, `list` and `dict`; raises `TypeError`
(modelled as `none`) on numbers, booleans and `None`. -/
def pyLen : Json → Option Nat
  | Json.str s => some s.length
  | Json.arr xs => some xs.length
  | Json.obj kvs => some kvs.length
  | _ => none

/-- Python `x[i]` with an integer index: list indexing, string indexing
(yielding a one-character string), and dictionary lookup.  A dictionary
produced by `json.loads` has only string keys, so an integer key raises
`KeyError` (modelled as `none`); types without `__getitem__` raise
`TypeError` (also `none`). -/
def pyIndexInt : Json → Nat → Option Json
  | Json.arr xs, i => xs.get? i
  | Json.str s, i => (s.toList.get? i).map (fun c => Json.str (String.mk [c]))
  | _, _ => none

/-- Python `x == n` for an integer literal `n`: true for an equal number, and
for a boolean whose integer value equals `n`; false for every other JSON
value (Python equality across unrelated types is `False`, not an error). -/
def pyEqNum (v : Json) (n : Int) : Bool :=
  match v with
  | Json.num m => m == n
  | Json.bool b => (if b then (1 : Int) else 0) == n
  | _ => false

/-! ### LCUApi event-handler registry (`api.py`)

`self._event_handlers : Dict[str, List[Callable]]` is an insertion-ordered
mapping from event path to a list of callback handles; we model it as an
association list and callbacks as numeric handles. -/

/-- A callback handle. -/
abbrev Callback := Nat

/-- The `_event_handlers` dictionary of `LCUApi`. -/
abbrev EventHandlers := List (String × List Callback)

/-- Python exceptions that the embedded operations can raise. -/
inductive PyError where
  | valueError : PyError
  | attributeError : PyError
  deriving Repr, DecidableEq

/-- `LCUApi._store_subscription`: create the key with an empty list when
absent, then append the callback when not already present. -/
def storeSubscription (hs : EventHandlers) (eventPath : String) (cb : Callback) :
    EventHandlers :=
  if (hs.lookup eventPath).isSome then
    hs.map (fun kv =>
      if kv.1 = eventPath then
        (kv.1, if cb ∈ kv.2 then kv.2 else kv.2 ++ [cb])
      else kv)
  else hs ++ [(eventPath, [cb])]

/-- Python `list.remove`: removes the first occurrence, raising `ValueError`
(modelled as `none`) when the element is absent. -/
def pyListRemove : List Callback → Callback → Option (List Callback)
  | [], _ => none
  | x :: rest, cb =>
      if x = cb then some rest
      else (pyListRemove rest cb).map (fun ys => x :: ys)

/-- `LCUApi.unsubscribe`: when the path is a key of `_event_handlers`, either
clear all callbacks (`cb = none`) or `list.remove` the given callback, which
raises `ValueError` when it was never registered; when the path is not a key,
do nothing. -/
def unsubscribe (hs : EventHandlers) (eventPath : String) (cb : Option Callback) :
    Except PyError EventHandlers :=
  match hs.lookup eventPath with
  | none => Except.ok hs
  | some cbs =>
    match cb with
    | none =>
        Except.ok (hs.map (fun kv => if kv.1 = eventPath then (kv.1, []) else kv))
    | some c =>
        match pyListRemove cbs c with
        | none => Except.error PyError.valueError
        | some cbs2 =>
            Except.ok (hs.map (fun kv => if kv.1 = eventPath then (kv.1, cbs2) else kv))

/-! ### Peer-1 receive loop (`LCUApi._handle_messages`) -/

/-- Python `s.startswith(pre)`: a character-level prefix test. -/
def pyStartsWith (s pre : String) : Bool :=
  pre.toList.isPrefixOf s.toList

/-- The dispatch loop of `_handle_messages`: every callback registered under a
path that the (stripped) event path starts with is invoked, in registry
order. -/
def dispatchEvent (hs : EventHandlers) (eventPath : String) : List Callback :=
  hs.foldr (fun kv acc =>
    if pyStartsWith eventPath kv.1 then kv.2 ++ acc else acc) []

/-- Outcome of handling a single inbound WebSocket frame inside
`_handle_messages`. -/
inductive FrameOutcome where
  | skippedMalformed
      -- `json.loads` raised `JSONDecodeError`: logged, loop continues
  | ignored
      -- valid JSON whose shape check evaluated to `False`: no side effects
  | dispatched (callbacks : List Callback)
      -- event frame: the listed callbacks are invoked
  | crashed
      -- an exception not caught by the inner `except json.JSONDecodeError`:
      -- it propagates to the outer handler and the receive loop exits
  deriving Repr, DecidableEq

/-- One iteration of the receive loop of `LCUApi._handle_messages` on one
frame.  `frame = none` models a frame that is not valid JSON.  The body
evaluates `len(data) == 3 and data[0] == 8`, then
`data[1].replace("OnJsonApiEvent_", "")`, then `data[2].get("uri", "")`, and
dispatches; only `json.JSONDecodeError` is caught by the inner handler, so a
`TypeError`/`KeyError`/`AttributeError` raised by these steps exits the
loop (`FrameOutcome.crashed`). -/
def handleMessage (hs : EventHandlers) (frame : Option Json) : FrameOutcome :=
  match frame with
  | none => FrameOutcome.skippedMalformed
  | some data =>
    match pyLen data with
    | none => FrameOutcome.crashed
    | some l =>
      if l = 3 then
        match pyIndexInt data 0 with
        | none => FrameOutcome.crashed
        | some d0 =>
          if pyEqNum d0 8 then
            match pyIndexInt data 1 with
            | none => FrameOutcome.crashed
            | some (Json.str name) =>
              match pyIndexInt data 2 with
              | some (Json.obj _) =>
                  FrameOutcome.dispatched
                    (dispatchEvent hs (name.replace "OnJsonApiEvent_" ""))
              | _ => FrameOutcome.crashed
            | some _ => FrameOutcome.crashed
          else FrameOutcome.ignored
      else FrameOutcome.ignored

/-! ### LCU HTTP requests (`LCUApi.get_request` / `post_request`, `auth.py`) -/

/-- The credential state of `LeagueClientAuth`: `auth_token` and `client_port`
are `None` until discovery succeeds. -/
structure AuthState where
  auth_token : Option String
  client_port : Option Nat
  deriving Repr, DecidableEq

/-- `LeagueClientAuth.is_client_running`:
`bool(self.auth_token and self.client_port)` — Python truthiness, so an empty
token string or port `0` also count as not running. -/
def is_client_running (a : AuthState) : Bool :=
  match a.auth_token, a.client_port with
  | some t, some p => (t != "") && (p != 0)
  | _, _ => false

/-- The outcome that the `requests` library delivers for one HTTP call, after
its own redirect handling: either an exception from the transport
(`requests.RequestException`), or a final response with a status code, a
content-emptiness flag, and the JSON parse of the body (`none` when the body
is not valid JSON). -/
inductive HttpOutcome where
  | transportError : HttpOutcome
  | response (status : Nat) (hasContent : Bool) (parsedBody : Option Json) : HttpOutcome

/-- A network side effect of `get_request`/`post_request`. -/
inductive HttpEffect where
  | networkCall (method : String) (endpoint : String)
  deriving Repr, DecidableEq

/-- `LCUApi.get_request`: returns `{}` with no network call when the client is
not running; otherwise issues one call and returns `{}` on a transport
exception, on `raise_for_status` (which raises exactly for status codes in
[400, 600)), or when `response.json()` fails to parse the body; otherwise
returns the parsed body. -/
def get_request (a : AuthState) (endpoint : String) (outcome : HttpOutcome) :
    Json × List HttpEffect :=
  if !is_client_running a then (emptyObj, [])
  else
    let eff := [HttpEffect.networkCall "GET" endpoint]
    match outcome with
    | HttpOutcome.transportError => (emptyObj, eff)
    | HttpOutcome.response status _ body =>
        if 400 ≤ status ∧ status < 600 then (emptyObj, eff)
        else
          match body with
          | some j => (j, eff)
          | none => (emptyObj, eff)

/-- `LCUApi.post_request`: as `get_request`, except that an empty response
body yields `{}` without attempting a JSON parse
(`response.json() if response.content else {}`). -/
def post_request (a : AuthState) (endpoint : String) (outcome : HttpOutcome) :
    Json × List HttpEffect :=
  if !is_client_running a then (emptyObj, [])
  else
    let eff := [HttpEffect.networkCall "POST" endpoint]
    match outcome with
    | HttpOutcome.transportError => (emptyObj, eff)
    | HttpOutcome.response status hasContent body =>
        if 400 ≤ status ∧ status < 600 then (emptyObj, eff)
        else if !hasContent then (emptyObj, eff)
        else
          match body with
          | some j => (j, eff)
          | none => (emptyObj, eff)

/-- `LeagueClientAuth.add_connection_callback`: appends the callback when not
already registered and immediately invokes it once with the current
connection state; a duplicate registration is ignored.  Returns the new
callback list and the list of invocations `(handle, argument)` performed. -/
def add_connection_callback (cbs : List Callback) (connected : Bool) (cb : Callback) :
    List Callback × List (Callback × Bool) :=
  if cb ∈ cbs then (cbs, [])
  else (cbs ++ [cb], [(cb, connected)])

/-! ### OBSClient (`obs_client.py`) -/

/-- The observable state of `OBSClient` that the recording and profile
commands touch: `_connected`, `_recording`, `_profiles`. -/
structure ObsState where
  connected : Bool
  recording : Bool
  profiles : List String
  deriving Repr, DecidableEq

/-- A side effect of one OBSClient command invocation. -/
inductive ObsEffect where
  | rpcCall (request : String)
  | callbackInvoked (result : Bool)
  deriving Repr, DecidableEq

/-- Whether an `ObsEffect` is an RPC call to the OBS session. -/
def isRpcCall : ObsEffect → Bool
  | ObsEffect.rpcCall _ => true
  | _ => false

/-- Result of one `self._ws.call(...)` inside a command worker. -/
inductive ObsCallResult where
  | ok (status : Option Bool)
      -- `some b`: the response has a `status` attribute of truthiness `b`;
      -- `none`: the response has no `status` attribute
  | raised
      -- the call raised an exception
  deriving Repr, DecidableEq

/-- `success = hasattr(response, 'status') and response.status`, and `False`
when the call raised. -/
def respSuccess : ObsCallResult → Bool
  | ObsCallResult.ok st => st.getD false
  | ObsCallResult.raised => false

/-- Outcome of one OBSClient command: the state after the worker body ran, the
effect trace, and the value the command method returned to its caller. -/
structure ObsCmdOutcome where
  state : ObsState
  effects : List ObsEffect
  returned : Bool
  deriving Repr, DecidableEq

/-- `OBSClient.start_recording`: fails fast when disconnected; otherwise the
worker issues `StartRecord`, computes success from the response, sets
`_recording := True` on success only, and reports via the callback.
`hasCallback` records whether the caller supplied a callback. -/
def start_recording (s : ObsState) (hasCallback : Bool) (resp : ObsCallResult) :
    ObsCmdOutcome :=
  if !s.connected then
    ⟨s, if hasCallback then [ObsEffect.callbackInvoked false] else [], false⟩
  else
    match resp with
    | ObsCallResult.raised =>
        ⟨s, [ObsEffect.rpcCall "StartRecord"] ++
            (if hasCallback then [ObsEffect.callbackInvoked false] else []), true⟩
    | ObsCallResult.ok st =>
        let success := st.getD false
        ⟨if success then { s with recording := true } else s,
         [ObsEffect.rpcCall "StartRecord"] ++
            (if hasCallback then [ObsEffect.callbackInvoked success] else []), true⟩

/-- `OBSClient.stop_recording`: symmetric to `start_recording`, issuing
`StopRecord` and setting `_recording := False` on success only. -/
def stop_recording (s : ObsState) (hasCallback : Bool) (resp : ObsCallResult) :
    ObsCmdOutcome :=
  if !s.connected then
    ⟨s, if hasCallback then [ObsEffect.callbackInvoked false] else [], false⟩
  else
    match resp with
    | ObsCallResult.raised =>
        ⟨s, [ObsEffect.rpcCall "StopRecord"] ++
            (if hasCallback then [ObsEffect.callbackInvoked false] else []), true⟩
    | ObsCallResult.ok st =>
        let success := st.getD false
        ⟨if success then { s with recording := false } else s,
         [ObsEffect.rpcCall "StopRecord"] ++
            (if hasCallback then [ObsEffect.callbackInvoked success] else []), true⟩

/-- `OBSClient._on_recording_state_changed`: when the event has a `datain`
attribute, `_recording := datain.get('outputActive', False)`; otherwise the
flag is untouched. -/
def on_recording_state_changed (s : ObsState) (hasDatain : Bool) (outputActive : Bool) :
    ObsState :=
  if hasDatain then { s with recording := outputActive } else s

/-- `OBSClient.set_profile`: fails fast when disconnected; otherwise the
worker first checks the requested name against the cached `_profiles` list
and fails locally (no RPC call) when absent; otherwise issues
`SetCurrentProfile`, which in protocol v5 counts as success unless the call
raised. -/
def set_profile (s : ObsState) (profileName : String) (hasCallback : Bool)
    (rpcRaises : Bool) : ObsCmdOutcome :=
  if !s.connected then
    ⟨s, if hasCallback then [ObsEffect.callbackInvoked false] else [], false⟩
  else if profileName ∉ s.profiles then
    ⟨s, if hasCallback then [ObsEffect.callbackInvoked false] else [], true⟩
  else if rpcRaises then
    ⟨s, [ObsEffect.rpcCall "SetCurrentProfile"] ++
        (if hasCallback then [ObsEffect.callbackInvoked false] else []), true⟩
  else
    ⟨s, [ObsEffect.rpcCall "SetCurrentProfile"] ++
        (if hasCallback then [ObsEffect.callbackInvoked true] else []), true⟩

/-- `OBSClient.add_connection_handler`: appends the handler when not already
registered, and immediately invokes it with `True` only when currently
connected (`if self._connected:`); when disconnected, no replay happens.
Returns the new handler list and the invocations performed. -/
def add_connection_handler (hs : List Callback) (connected : Bool) (h : Callback) :
    List Callback × List (Callback × Bool) :=
  if h ∈ hs then (hs, [])
  else (hs ++ [h], if connected then [(h, true)] else [])

/-! ### GameTracker (`logic.py`) -/

/-- The `GamePhase` enumeration of `logic.py`. -/
inductive GamePhase where
  | NONE | LOBBY | MATCHMAKING | CHAMPION_SELECT | GAME_START | IN_GAME | POST_GAME
  deriving Repr, DecidableEq

/-- The `phase_mapping` dictionary inside `_handle_gameflow_update`, with its
`.get(new_phase, GamePhase.NONE)` default for unrecognized strings. -/
def phaseMapping (raw : String) : GamePhase :=
  if raw = "Home Screen" then GamePhase.NONE
  else if raw = "Lobby" then GamePhase.LOBBY
  else if raw = "Matchmaking" then GamePhase.MATCHMAKING
  else if raw = "ChampSelect" then GamePhase.CHAMPION_SELECT
  else if raw = "GameStart" then GamePhase.GAME_START
  else if raw = "InProgress" then GamePhase.IN_GAME
  else if raw = "WaitingForStats" then GamePhase.POST_GAME
  else if raw = "PreEndOfGame" then GamePhase.POST_GAME
  else if raw = "EndOfGame" then GamePhase.POST_GAME
  else GamePhase.NONE

/-- The state of `GameTracker` together with the `OBSClient.is_connected`
value it consults, and whether a game-update callback has been registered. -/
structure TrackerState where
  current_phase : GamePhase
  recording_started : Bool
  obs_connected : Bool
  has_game_update_callback : Bool
  deriving Repr, DecidableEq

/-- A side effect of a `GameTracker` handler. -/
inductive TrackerEffect where
  | notifyGameUpdate (eventType : String) (phase : String) (queue : String)
      -- invocation of the registered `_game_update_callback`
  | obsStartRecordingRequest
      -- a call to `self.obs.start_recording(...)`
  | obsStopRecordingRequest
      -- a call to `self.obs.stop_recording(...)`
  | commitPhase (p : GamePhase)
      -- the assignment `self.current_phase = new_game_phase`
  | obsSetProfileRequest (name : String)
      -- a call to `self.obs.set_profile(...)`
  | registerRecordStateHandler
      -- `self.obs.register_event_handler('RecordStateChanged', ...)`
  deriving Repr, DecidableEq

/-- `GameTracker._start_recording`: requests an OBS recording start only when
the local flag is clear and OBS is connected.  The local flag is not written
here (it is driven by `_handle_recording_state`). -/
def trackerStartRecording (s : TrackerState) : List TrackerEffect :=
  if !s.recording_started && s.obs_connected then
    [TrackerEffect.obsStartRecordingRequest]
  else []

/-- `GameTracker._stop_recording`: requests an OBS recording stop only when
the local flag is set and OBS is connected. -/
def trackerStopRecording (s : TrackerState) : List TrackerEffect :=
  if s.recording_started && s.obs_connected then
    [TrackerEffect.obsStopRecordingRequest]
  else []

/-- `GameTracker._handle_phase_change`: the recording policy per new phase.
It only emits requests; the tracker state is not modified here. -/
def handlePhaseChange (s : TrackerState) (newPhase : GamePhase) : List TrackerEffect :=
  match newPhase with
  | GamePhase.CHAMPION_SELECT => trackerStartRecording s
  | GamePhase.IN_GAME =>
      if !s.recording_started then trackerStartRecording s else []
  | GamePhase.NONE => if s.recording_started then trackerStopRecording s else []
  | GamePhase.LOBBY => if s.recording_started then trackerStopRecording s else []
  | GamePhase.POST_GAME => if s.recording_started then trackerStopRecording s else []
  | _ => []

/-- The payload of a gameflow event as `_handle_gameflow_update` reads it:
`data.get('data', {})` (the whole record is `none` when the `data` key is
absent or empty), then `.get('phase', 'None')` and the nested queue
description with default `'Unknown Queue'`. -/
structure GameflowEventData where
  phase : Option String
  queueDescription : Option String
  deriving Repr, DecidableEq

/-- `game_data.get('phase', 'None')`. -/
def rawPhase (d : Option GameflowEventData) : String :=
  match d with
  | none => "None"
  | some gd => gd.phase.getD "None"

/-- `game_data.get('gameData', {}).get('queue', {}).get('description', 'Unknown Queue')`. -/
def queueInfo (d : Option GameflowEventData) : String :=
  match d with
  | none => "Unknown Queue"
  | some gd => gd.queueDescription.getD "Unknown Queue"

/-- `GameTracker._handle_gameflow_update`: computes the new phase; when it
differs from `current_phase`, notifies the registered game-update callback
(when one is registered), applies the phase-change policy, and commits
`current_phase := new_game_phase`, in that order; when the phase is
unchanged, does nothing. -/
def handleGameflowUpdate (s : TrackerState) (d : Option GameflowEventData) :
    TrackerState × List TrackerEffect :=
  let newPhaseStr := rawPhase d
  let queue := queueInfo d
  let newGamePhase := phaseMapping newPhaseStr
  if newGamePhase ≠ s.current_phase then
    let notif :=
      if s.has_game_update_callback then
        [TrackerEffect.notifyGameUpdate "gameflow" newPhaseStr queue]
      else []
    let policy := handlePhaseChange s newGamePhase
    ({ s with current_phase := newGamePhase },
     notif ++ policy ++ [TrackerEffect.commitPhase newGamePhase])
  else (s, [])

/-- `GameTracker._handle_dodge`: force-stop via `_stop_recording` (which is
still guarded by the recording flag and OBS connectivity), then reset
`current_phase` to `NONE` directly, with no downstream notification. -/
def handleDodge (s : TrackerState) : TrackerState × List TrackerEffect :=
  ({ s with current_phase := GamePhase.NONE }, trackerStopRecording s)

/-- `GameTracker._handle_champselect_update`: when the event carries no
truthy `data` payload and the current phase is `CHAMPION_SELECT`, treat it as
a dodge; otherwise do nothing. -/
def handleChampselectUpdate (s : TrackerState) (hasData : Bool) :
    TrackerState × List TrackerEffect :=
  if !hasData then
    if s.current_phase = GamePhase.CHAMPION_SELECT then handleDodge s
    else (s, [])
  else (s, [])

/-- `GameTracker._handle_recording_state`: the `RecordStateChanged`
subscription drives the local flag. -/
def handleRecordingState (s : TrackerState) (isRecording : Bool) : TrackerState :=
  { s with recording_started := isRecording }

/-- The attribute names defined on the `GameTracker` class and its instances
in `logic.py` (methods and `__init__` fields). -/
def gameTrackerAttributes : List String :=
  ["logger", "obs", "api", "auth", "current_phase", "recording_started",
   "client_connected", "_game_update_callback", "register_game_update_callback",
   "start", "stop", "_set_obs_profile", "_handle_gameflow_update",
   "_handle_champselect_update", "_handle_phase_change", "_handle_dodge",
   "_handle_recording_state", "_start_recording", "_stop_recording"]

/-- The seeding step inside `GameTracker.start`:
`self._gameflow_update({'data': gameflow})`.  Python attribute lookup on
`self` raises `AttributeError` when the name is not an attribute of the
instance or its class — and `_gameflow_update` is not among
`gameTrackerAttributes` (the handler is named `_handle_gameflow_update`). -/
def seedFromGameflow (s : TrackerState) (gf : GameflowEventData) :
    Except PyError (TrackerState × List TrackerEffect) :=
  if "_gameflow_update" ∈ gameTrackerAttributes then
    Except.ok (handleGameflowUpdate s (some gf))
  else Except.error PyError.attributeError

/-- `GameTracker.start`: one synchronous read of the gameflow session
(`gameflowRead`, `none` when the read returned a falsy `{}`), then the
seeding attempt, whose `AttributeError` is caught by the surrounding
`except` and logged, leaving the state unchanged; then, when OBS is
connected, a `set_profile` request; finally the `RecordStateChanged`
registration. -/
def trackerStart (s : TrackerState) (gameflowRead : Option GameflowEventData) :
    TrackerState × List TrackerEffect :=
  let step1 : TrackerState × List TrackerEffect :=
    match gameflowRead with
    | none => (s, [])
    | some gf =>
      match seedFromGameflow s gf with
      | Except.ok r => r
      | Except.error _ => (s, [])
  let profileEffects :=
    if step1.1.obs_connected then
      [TrackerEffect.obsSetProfileRequest "League of Legends"]
    else []
  (step1.1, step1.2 ++ profileEffects ++ [TrackerEffect.registerRecordStateHandler])

/-! ### Helper lemmas -/

/-- Unfolding lemma for `dispatchEvent` on a nonempty registry. -/
theorem dispatchEvent_cons (kv : String × List Callback) (rest : EventHandlers)
    (e : String) :
    dispatchEvent (kv :: rest) e =
      if pyStartsWith e kv.1 then kv.2 ++ dispatchEvent rest e
      else dispatchEvent rest e := rfl

/-- `list.remove` raises (`none`) exactly when the element is absent. -/
theorem pyListRemove_eq_none_of_not_mem (cbs : List Callback) (cb : Callback)
    (h : cb ∉ cbs) : pyListRemove cbs cb = none := by
  induction cbs with
  | nil => rfl
  | cons x rest ih =>
      have hx : x ≠ cb := fun hxe => h (hxe ▸ List.mem_cons_self x rest)
      have hrest : cb ∉ rest := fun hr => h (List.mem_cons_of_mem x hr)
      simp [pyListRemove, hx, ih hrest]

/-! ### Claim theorems -/

/-- Claim C6 (confirmed): Peer-1 event dispatch is path-matched by string
starts-with: every callback registered under a path that the stripped event
path starts with is invoked, and when the event path starts with no
registered path, no callback is invoked. -/
theorem dispatch_is_path_matched (hs : EventHandlers) (eventPath : String) :
    (∀ p cbs, (p, cbs) ∈ hs → pyStartsWith eventPath p = true →
        ∀ cb ∈ cbs, cb ∈ dispatchEvent hs eventPath) ∧
    ((∀ pc ∈ hs, pyStartsWith eventPath pc.1 = false) →
        dispatchEvent hs eventPath = []) := by
  induction hs with
  | nil =>
      refine ⟨?_, ?_⟩
      · intro p cbs hmem
        simp at hmem
      · intro _
        rfl
  | cons kv rest ih =>
      obtain ⟨k, v⟩ := kv
      refine ⟨?_, ?_⟩
      · intro p cbs hmem hpre cb hcb
        rw [dispatchEvent_cons]
        rcases List.mem_cons.mp hmem with heq | hmem2
        · obtain ⟨hk, hv⟩ := Prod.mk.injEq p cbs k v ▸ heq
          subst hk
          subst hv
          simp only [hpre, if_true]
          exact List.mem_append_left _ hcb
        · have htail : cb ∈ dispatchEvent rest eventPath :=
            ih.1 p cbs hmem2 hpre cb hcb
          by_cases hk : pyStartsWith eventPath k = true
          · simp only [hk, if_true]
            exact List.mem_append_right _ htail
          · simp only [hk, if_false]
            exact htail
      · intro hall
        rw [dispatchEvent_cons]
        have hkv : pyStartsWith eventPath k = false :=
          hall (k, v) (List.mem_cons_self _ _)
        simp only [hkv, Bool.false_eq_true, if_false]
        exact ih.2 (fun pc hpc => hall pc (List.mem_cons_of_mem _ hpc))

/-- Witness for C6: an event at `lol-gameflow_v1_session/extra` reaches the
callback registered at `lol-gameflow_v1_session`, and an event at
`other_path` reaches none. -/
theorem dispatch_is_path_matched_witness :
    (7 : Callback) ∈
      dispatchEvent [("lol-gameflow_v1_session", [7])] "lol-gameflow_v1_session/extra" ∧
    dispatchEvent [("lol-gameflow_v1_session", [7])] "other_path" = [] := by
  refine ⟨?_, ?_⟩
  · exact (dispatch_is_path_matched [("lol-gameflow_v1_session", [7])]
      "lol-gameflow_v1_session/extra").1 "lol-gameflow_v1_session" [7]
      (by simp) (by decide) 7 (by simp)
  · exact (dispatch_is_path_matched [("lol-gameflow_v1_session", [7])]
      "other_path").2 (by decide)

/-- Claim C10 (confirmed): `unsubscribe` with a callback that was never
registered for a path that has registered handlers raises `ValueError`, while
`unsubscribe` on a path with no registrations at all silently does nothing. -/
theorem unsubscribe_unknown_callback_raises (hs : EventHandlers) (p : String)
    (cb : Callback) :
    (∀ cbs, hs.lookup p = some cbs → cbs ≠ [] → cb ∉ cbs →
        unsubscribe hs p (some cb) = Except.error PyError.valueError) ∧
    (hs.lookup p = none → unsubscribe hs p (some cb) = Except.ok hs) := by
  refine ⟨?_, ?_⟩
  · intro cbs hlk hne hnm
    simp [unsubscribe, hlk, pyListRemove_eq_none_of_not_mem cbs cb hnm]
  · intro hlk
    simp [unsubscribe, hlk]

/-- Witness for C10: removing the never-registered callback `2` from the
subscribed path raises `ValueError`; unsubscribing from an unregistered path
returns the registry unchanged. -/
theorem unsubscribe_unknown_callback_raises_witness :
    unsubscribe [("lol-gameflow_v1_session", [1])] "lol-gameflow_v1_session" (some 2) =
      Except.error PyError.valueError ∧
    unsubscribe [("lol-gameflow_v1_session", [1])] "other" (some 2) =
      Except.ok [("lol-gameflow_v1_session", [1])] := by
  refine ⟨?_, ?_⟩
  · exact (unsubscribe_unknown_callback_raises [("lol-gameflow_v1_session", [1])]
      "lol-gameflow_v1_session" 2).1 [1] (by decide) (by decide) (by decide)
  · exact (unsubscribe_unknown_callback_raises [("lol-gameflow_v1_session", [1])]
      "other" 2).2 (by decide)

/-- Counterexample to C5 as stated: the JSON frame `5` (a valid-JSON scalar)
does not match the event shape, yet it is not ignored: `len(data)` raises
`TypeError`, which the inner `except json.JSONDecodeError` does not catch, so
the receive loop exits (`FrameOutcome.crashed`). -/
theorem scalar_frame_crashes_loop :
    handleMessage [] (some (Json.num 5)) = FrameOutcome.crashed ∧
    FrameOutcome.crashed ≠ FrameOutcome.ignored ∧
    FrameOutcome.crashed ≠ FrameOutcome.skippedMalformed := by
  refine ⟨rfl, by decide, by decide⟩

/-- Claim C5 (amended): a non-JSON frame is logged and skipped and the loop
continues; a JSON frame on which the shape check evaluates without error to
`False` (wrong length, or a 3-element array whose first element is not `8`)
is ignored without side effects; but a JSON frame on which the shape check
itself raises — a scalar without `len`, or a 3-element object whose integer
indexing raises `KeyError` — terminates the receive loop. -/
theorem frame_handling_behavior (hs : EventHandlers) :
    (handleMessage hs none = FrameOutcome.skippedMalformed) ∧
    (∀ d l, pyLen d = some l → l ≠ 3 →
        handleMessage hs (some d) = FrameOutcome.ignored) ∧
    (∀ xs d0, xs.length = 3 → xs.get? 0 = some d0 → pyEqNum d0 8 = false →
        handleMessage hs (some (Json.arr xs)) = FrameOutcome.ignored) ∧
    (∀ n, handleMessage hs (some (Json.num n)) = FrameOutcome.crashed) ∧
    (∀ kvs, kvs.length = 3 →
        handleMessage hs (some (Json.obj kvs)) = FrameOutcome.crashed) := by
  refine ⟨rfl, ?_, ?_, fun n => rfl, ?_⟩
  · intro d l hlen hne
    simp [handleMessage, hlen, hne]
  · intro xs d0 hlen h0 hne
    obtain ⟨a, b, c, rfl⟩ := List.length_eq_three.mp hlen
    have ha : a = d0 := by simpa using h0
    subst ha
    simp [handleMessage, pyLen, pyIndexInt, hne]
  · intro kvs hlen
    simp [handleMessage, pyLen, pyIndexInt, hlen]

/-- Witness for C5 (amended), at concrete frames: a malformed frame is
skipped; a two-character string frame and a 3-element array frame with first
element `5` are ignored; the scalar frame `5` and a 3-key object frame crash
the loop. -/
theorem frame_handling_behavior_witness :
    handleMessage [] none = FrameOutcome.skippedMalformed ∧
    handleMessage [] (some (Json.str "ab")) = FrameOutcome.ignored ∧
    handleMessage [] (some (Json.arr [Json.num 5, Json.str "x", Json.obj []])) =
      FrameOutcome.ignored ∧
    handleMessage [] (some (Json.num 5)) = FrameOutcome.crashed ∧
    handleMessage []
      (some (Json.obj [("a", Json.null), ("b", Json.null), ("c", Json.null)])) =
      FrameOutcome.crashed := by
  refine ⟨(frame_handling_behavior []).1,
          (frame_handling_behavior []).2.1 (Json.str "ab") 2 rfl (by decide),
          (frame_handling_behavior []).2.2.1 [Json.num 5, Json.str "x", Json.obj []]
            (Json.num 5) rfl rfl rfl,
          (frame_handling_behavior []).2.2.2.1 5,
          (frame_handling_behavior []).2.2.2.2
            [("a", Json.null), ("b", Json.null), ("c", Json.null)] rfl⟩

/-- Counterexample to C2 as stated: champ-select-ended-without-data while in
`CHAMPION_SELECT` with the recording flag clear resets the phase but issues
zero stop-recording requests — `_stop_recording` is guarded by
`self.recording_started and self.obs.is_connected`, so the outcome is not
independent of the prior flag value. -/
theorem champselect_dodge_no_stop_when_flag_clear :
    (handleChampselectUpdate ⟨GamePhase.CHAMPION_SELECT, false, true, true⟩
        false).1.current_phase = GamePhase.NONE ∧
    (handleChampselectUpdate ⟨GamePhase.CHAMPION_SELECT, false, true, true⟩
        false).2 = [] := by
  exact ⟨rfl, rfl⟩

/-- Claim C2 (amended): handling a champ-select event with no data while
`current_phase = CHAMPION_SELECT` always resets `current_phase` to `NONE`,
and issues exactly one stop-recording request when the recording flag is set
and OBS is connected, and none otherwise. -/
theorem champselect_dodge_resets_phase (s : TrackerState)
    (h : s.current_phase = GamePhase.CHAMPION_SELECT) :
    (handleChampselectUpdate s false).1.current_phase = GamePhase.NONE ∧
    (handleChampselectUpdate s false).2 =
      (if s.recording_started && s.obs_connected then
        [TrackerEffect.obsStopRecordingRequest]
      else []) := by
  refine ⟨?_, ?_⟩
  · simp [handleChampselectUpdate, handleDodge, h]
  · simp [handleChampselectUpdate, handleDodge, trackerStopRecording, h]

/-- Witness for C2 (amended): with the recording flag set and OBS connected,
the dodge path resets the phase and issues the one stop request. -/
theorem champselect_dodge_resets_phase_witness :
    (⟨GamePhase.CHAMPION_SELECT, true, true, true⟩ : TrackerState).current_phase =
      GamePhase.CHAMPION_SELECT ∧
    ((handleChampselectUpdate ⟨GamePhase.CHAMPION_SELECT, true, true, true⟩
        false).1.current_phase = GamePhase.NONE ∧
     (handleChampselectUpdate ⟨GamePhase.CHAMPION_SELECT, true, true, true⟩
        false).2 =
       (if ((⟨GamePhase.CHAMPION_SELECT, true, true, true⟩ : TrackerState).recording_started &&
            (⟨GamePhase.CHAMPION_SELECT, true, true, true⟩ : TrackerState).obs_connected) then
         [TrackerEffect.obsStopRecordingRequest]
       else [])) :=
  ⟨rfl, champselect_dodge_resets_phase ⟨GamePhase.CHAMPION_SELECT, true, true, true⟩ rfl⟩

/-- Claim C7 (confirmed): a gameflow event whose mapped phase equals
`current_phase` is a no-op; on a changed phase the effect order is
notification, then phase-change policy, then the `current_phase` commit, and
re-handling the identical event immediately afterwards produces no further
effects. -/
theorem gameflow_update_idempotent_and_ordered (s : TrackerState)
    (d : Option GameflowEventData) (hcb : s.has_game_update_callback = true) :
    (phaseMapping (rawPhase d) = s.current_phase →
        handleGameflowUpdate s d = (s, [])) ∧
    (phaseMapping (rawPhase d) ≠ s.current_phase →
        (handleGameflowUpdate s d).2 =
          TrackerEffect.notifyGameUpdate "gameflow" (rawPhase d) (queueInfo d) ::
            (handlePhaseChange s (phaseMapping (rawPhase d)) ++
              [TrackerEffect.commitPhase (phaseMapping (rawPhase d))]) ∧
        (handleGameflowUpdate s d).1 =
          { s with current_phase := phaseMapping (rawPhase d) }) ∧
    (handleGameflowUpdate (handleGameflowUpdate s d).1 d).2 = [] := by
  by_cases hch : phaseMapping (rawPhase d) = s.current_phase
  · refine ⟨fun _ => ?_, fun hne => absurd hch hne, ?_⟩
    · simp [handleGameflowUpdate, hch]
    · simp [handleGameflowUpdate, hch]
  · have h1 : (handleGameflowUpdate s d).1 =
        { s with current_phase := phaseMapping (rawPhase d) } := by
      simp [handleGameflowUpdate, hch]
    refine ⟨fun heq => absurd heq hch, fun _ => ⟨?_, h1⟩, ?_⟩
    · simp [handleGameflowUpdate, hch, hcb]
    · rw [h1]
      simp [handleGameflowUpdate]

/-- Witness for C7: from `NONE` with a registered downstream callback, a
`ChampSelect` gameflow event notifies once, applies the policy once, commits,
and its immediate duplicate is a no-op. -/
theorem gameflow_update_idempotent_witness :
    (⟨GamePhase.NONE, false, true, true⟩ : TrackerState).has_game_update_callback =
      true ∧
    ((phaseMapping (rawPhase (some ⟨some "ChampSelect", some "Ranked Solo/Duo"⟩)) =
        (⟨GamePhase.NONE, false, true, true⟩ : TrackerState).current_phase →
        handleGameflowUpdate ⟨GamePhase.NONE, false, true, true⟩
          (some ⟨some "ChampSelect", some "Ranked Solo/Duo"⟩) =
          (⟨GamePhase.NONE, false, true, true⟩, [])) ∧
     (phaseMapping (rawPhase (some ⟨some "ChampSelect", some "Ranked Solo/Duo"⟩)) ≠
        (⟨GamePhase.NONE, false, true, true⟩ : TrackerState).current_phase →
        (handleGameflowUpdate ⟨GamePhase.NONE, false, true, true⟩
            (some ⟨some "ChampSelect", some "Ranked Solo/Duo"⟩)).2 =
          TrackerEffect.notifyGameUpdate "gameflow"
              (rawPhase (some ⟨some "ChampSelect", some "Ranked Solo/Duo"⟩))
              (queueInfo (some ⟨some "ChampSelect", some "Ranked Solo/Duo"⟩)) ::
            (handlePhaseChange ⟨GamePhase.NONE, false, true, true⟩
                (phaseMapping (rawPhase (some ⟨some "ChampSelect", some "Ranked Solo/Duo"⟩))) ++
              [TrackerEffect.commitPhase
                (phaseMapping (rawPhase (some ⟨some "ChampSelect", some "Ranked Solo/Duo"⟩)))]) ∧
        (handleGameflowUpdate ⟨GamePhase.NONE, false, true, true⟩
            (some ⟨some "ChampSelect", some "Ranked Solo/Duo"⟩)).1 =
          { (⟨GamePhase.NONE, false, true, true⟩ : TrackerState) with
              current_phase :=
                phaseMapping (rawPhase (some ⟨some "ChampSelect", some "Ranked Solo/Duo"⟩)) }) ∧
     (handleGameflowUpdate
        (handleGameflowUpdate ⟨GamePhase.NONE, false, true, true⟩
          (some ⟨some "ChampSelect", some "Ranked Solo/Duo"⟩)).1
        (some ⟨some "ChampSelect", some "Ranked Solo/Duo"⟩)).2 = []) :=
  ⟨rfl, gameflow_update_idempotent_and_ordered ⟨GamePhase.NONE, false, true, true⟩
    (some ⟨some "ChampSelect", some "Ranked Solo/Duo"⟩) rfl⟩

/-- Claim C3 (code bug): `GameTracker.start` attempts to seed `current_phase`
via `self._gameflow_update(...)`, but no such attribute exists (the handler
is `_handle_gameflow_update`), so the call raises `AttributeError`, which the
surrounding `except` swallows: on a read revealing `InProgress` (which maps
to `IN_GAME`), `current_phase` remains `NONE` instead of being seeded. -/
theorem start_seeding_suppressed_by_missing_method :
    phaseMapping "InProgress" = GamePhase.IN_GAME ∧
    seedFromGameflow ⟨GamePhase.NONE, false, true, true⟩ ⟨some "InProgress", none⟩ =
      Except.error PyError.attributeError ∧
    (trackerStart ⟨GamePhase.NONE, false, true, true⟩
        (some ⟨some "InProgress", none⟩)).1.current_phase = GamePhase.NONE ∧
    TrackerEffect.obsStartRecordingRequest ∉
      (trackerStart ⟨GamePhase.NONE, false, true, true⟩
        (some ⟨some "InProgress", none⟩)).2 := by
  refine ⟨rfl, ?_, ?_, ?_⟩
  · simp [seedFromGameflow, gameTrackerAttributes]
  · simp [trackerStart, seedFromGameflow, gameTrackerAttributes]
  · simp [trackerStart, seedFromGameflow, gameTrackerAttributes]

/-- Counterexample to C1 as stated: a `start_recording` invocation whose RPC
response reports success sets `_recording := True` in the command's own
completion path, with no `RecordStateChanged` event involved. -/
theorem start_recording_success_sets_flag :
    (start_recording ⟨true, false, []⟩ true
        (ObsCallResult.ok (some true))).state.recording = true ∧
    (⟨true, false, []⟩ : ObsState).recording = false :=
  ⟨rfl, rfl⟩

/-- Claim C1 (amended): the failure paths of `start_recording` and
`stop_recording` (disconnected, raised call, unsuccessful response) leave the
`_recording` flag unchanged, but the success path of each sets it
optimistically (`True` for start, `False` for stop); the `RecordStateChanged`
handler also drives the flag, from the event payload. -/
theorem recording_flag_discipline (s : ObsState) (hasCallback : Bool)
    (resp : ObsCallResult) :
    (respSuccess resp = false →
        (start_recording s hasCallback resp).state.recording = s.recording ∧
        (stop_recording s hasCallback resp).state.recording = s.recording) ∧
    (s.connected = false →
        (start_recording s hasCallback resp).state = s ∧
        (stop_recording s hasCallback resp).state = s) ∧
    (s.connected = true → respSuccess resp = true →
        (start_recording s hasCallback resp).state.recording = true ∧
        (stop_recording s hasCallback resp).state.recording = false) ∧
    (∀ oa, (on_recording_state_changed s true oa).recording = oa) := by
  refine ⟨?_, ?_, ?_, fun oa => rfl⟩
  · intro hfail
    cases resp with
    | raised =>
        by_cases hc : s.connected = true <;>
          simp [start_recording, stop_recording, hc]
    | ok st =>
        have hst : st.getD false = false := hfail
        by_cases hc : s.connected = true <;>
          simp [start_recording, stop_recording, hc, hst]
  · intro hc
    cases resp <;> simp [start_recording, stop_recording, hc]
  · intro hc hsucc
    cases resp with
    | raised => simp [respSuccess] at hsucc
    | ok st =>
        have hst : st.getD false = true := hsucc
        simp [start_recording, stop_recording, hc, hst]

/-- Witness for C1 (amended), at a connected state with a successful
response. -/
theorem recording_flag_discipline_witness :
    (respSuccess (ObsCallResult.ok (some true)) = false →
        (start_recording ⟨true, true, []⟩ true
            (ObsCallResult.ok (some true))).state.recording =
          (⟨true, true, []⟩ : ObsState).recording ∧
        (stop_recording ⟨true, true, []⟩ true
            (ObsCallResult.ok (some true))).state.recording =
          (⟨true, true, []⟩ : ObsState).recording) ∧
    ((⟨true, true, []⟩ : ObsState).connected = false →
        (start_recording ⟨true, true, []⟩ true
            (ObsCallResult.ok (some true))).state = ⟨true, true, []⟩ ∧
        (stop_recording ⟨true, true, []⟩ true
            (ObsCallResult.ok (some true))).state = ⟨true, true, []⟩) ∧
    ((⟨true, true, []⟩ : ObsState).connected = true →
        respSuccess (ObsCallResult.ok (some true)) = true →
        (start_recording ⟨true, true, []⟩ true
            (ObsCallResult.ok (some true))).state.recording = true ∧
        (stop_recording ⟨true, true, []⟩ true
            (ObsCallResult.ok (some true))).state.recording = false) ∧
    (∀ oa, (on_recording_state_changed ⟨true, true, []⟩ true oa).recording = oa) :=
  recording_flag_discipline ⟨true, true, []⟩ true (ObsCallResult.ok (some true))

/-- Counterexample to C4 as stated: registering a fresh connection handler on
a disconnected `OBSClient` performs zero immediate invocations — the replay
is guarded by `if self._connected:`, so a late subscriber is not told about a
disconnected state. -/
theorem add_connection_handler_silent_when_disconnected :
    add_connection_handler [] false 1 = ([1], []) := rfl

/-- Claim C4 (amended): registering a fresh connection callback on
`LeagueClientAuth` immediately invokes it exactly once with the current state
whether connected or not; registering a fresh connection handler on
`OBSClient` immediately invokes it exactly once only when currently
connected, and not at all when disconnected. -/
theorem connection_listener_registration_replay (cbs hl : List Callback)
    (connected : Bool) (cb h : Callback) (hcb : cb ∉ cbs) (hh : h ∉ hl) :
    add_connection_callback cbs connected cb = (cbs ++ [cb], [(cb, connected)]) ∧
    add_connection_handler hl connected h =
      (hl ++ [h], if connected then [(h, true)] else []) := by
  constructor
  · simp [add_connection_callback, hcb]
  · simp [add_connection_handler, hh]

/-- Witness for C4 (amended): fresh registrations on empty listener lists
while disconnected — the auth callback is invoked once with `false`, the OBS
handler not at all. -/
theorem connection_listener_registration_replay_witness :
    ((1 : Callback) ∉ ([] : List Callback)) ∧
    ((2 : Callback) ∉ ([] : List Callback)) ∧
    (add_connection_callback [] false 1 = ([1], [(1, false)]) ∧
     add_connection_handler [] false 2 = ([2], if false then [(2, true)] else [])) :=
  ⟨by simp, by simp,
   connection_listener_registration_replay [] [] false 1 2 (by simp) (by simp)⟩

/-- Counterexample to C8 as stated: a final non-2xx response outside the
4xx/5xx range — e.g. a nonconforming `304 Not Modified` carrying a JSON
body — passes `raise_for_status` and its parsed body is returned verbatim,
not `{}`. -/
theorem get_request_non2xx_body_returned :
    (get_request ⟨some "token", some 1234⟩ "lol-gameflow/v1/session"
        (HttpOutcome.response 304 true
          (some (Json.obj [("cached", Json.bool true)])))).1 =
      Json.obj [("cached", Json.bool true)] ∧
    ¬ (200 ≤ 304 ∧ 304 < 300) ∧
    Json.obj [("cached", Json.bool true)] ≠ emptyObj := by
  refine ⟨rfl, by decide, ?_⟩
  intro h
  simp [emptyObj] at h

/-- Claim C8 (amended): with credentials absent (no token or no port),
`get_request` and `post_request` return `{}` with no network call; when
credentials are present, any transport error and any 4xx/5xx status also
yield `{}` (and the functions are total — nothing is raised to the
caller). -/
theorem request_error_handling (a : AuthState) (ep : String) (o : HttpOutcome) :
    ((a.auth_token = none ∨ a.client_port = none) →
        get_request a ep o = (emptyObj, []) ∧
        post_request a ep o = (emptyObj, [])) ∧
    (o = HttpOutcome.transportError →
        (get_request a ep o).1 = emptyObj ∧
        (post_request a ep o).1 = emptyObj) ∧
    (∀ st c b, o = HttpOutcome.response st c b → 400 ≤ st → st < 600 →
        (get_request a ep o).1 = emptyObj ∧
        (post_request a ep o).1 = emptyObj) := by
  refine ⟨?_, ?_, ?_⟩
  · intro habs
    have hrun : is_client_running a = false := by
      obtain ⟨tok, port⟩ := a
      rcases habs with h | h
      · subst h
        rfl
      · subst h
        cases tok <;> rfl
    simp [get_request, post_request, hrun]
  · rintro rfl
    by_cases hrun : is_client_running a = true <;>
      simp [get_request, post_request, hrun]
  · rintro st c b rfl h4 h6
    by_cases hrun : is_client_running a = true
    · have hst : 400 ≤ st ∧ st < 600 := ⟨h4, h6⟩
      simp [get_request, post_request, hrun, hst]
    · simp [get_request, post_request, hrun]

/-- Witness for C8 (amended): absent credentials short-circuit with no
network effect; a transport error and a 404 both yield `{}`. -/
theorem request_error_handling_witness :
    get_request ⟨none, some 5⟩ "lol-gameflow/v1/session" HttpOutcome.transportError =
      (emptyObj, []) ∧
    (post_request ⟨some "tok", some 5⟩ "endpoint" HttpOutcome.transportError).1 =
      emptyObj ∧
    (get_request ⟨some "tok", some 5⟩ "endpoint"
        (HttpOutcome.response 404 true none)).1 = emptyObj :=
  ⟨((request_error_handling ⟨none, some 5⟩ "lol-gameflow/v1/session"
      HttpOutcome.transportError).1 (Or.inl rfl)).1,
   ((request_error_handling ⟨some "tok", some 5⟩ "endpoint"
      HttpOutcome.transportError).2.1 rfl).2,
   ((request_error_handling ⟨some "tok", some 5⟩ "endpoint"
      (HttpOutcome.response 404 true none)).2.2 404 true none rfl (by decide)
      (by decide)).1⟩

/-- Claim C9 (confirmed): `set_profile` while connected with a name absent
from the cached profile list reports failure via the callback and issues zero
RPC calls; the client state is untouched. -/
theorem set_profile_unknown_fails_locally (s : ObsState) (name : String)
    (hasCallback : Bool) (rpcRaises : Bool)
    (hconn : s.connected = true) (hmem : name ∉ s.profiles) :
    (set_profile s name hasCallback rpcRaises).effects.filter isRpcCall = [] ∧
    (hasCallback = true →
        (set_profile s name hasCallback rpcRaises).effects =
          [ObsEffect.callbackInvoked false]) ∧
    (set_profile s name hasCallback rpcRaises).state = s := by
  refine ⟨?_, ?_, ?_⟩
  · by_cases hc : hasCallback = true <;>
      simp [set_profile, hconn, hmem, isRpcCall, hc]
  · intro hc
    simp [set_profile, hconn, hmem, hc]
  · simp [set_profile, hconn, hmem]

/-- Witness for C9: `setProfile("Unknown")` with cached list
`["League of Legends"]` on a connected client. -/
theorem set_profile_unknown_fails_locally_witness :
    (⟨true, false, ["League of Legends"]⟩ : ObsState).connected = true ∧
    ("Unknown" ∉ (⟨true, false, ["League of Legends"]⟩ : ObsState).profiles) ∧
    ((set_profile ⟨true, false, ["League of Legends"]⟩ "Unknown" true
        false).effects.filter isRpcCall = [] ∧
     ((true : Bool) = true →
        (set_profile ⟨true, false, ["League of Legends"]⟩ "Unknown" true
          false).effects = [ObsEffect.callbackInvoked false]) ∧
     (set_profile ⟨true, false, ["League of Legends"]⟩ "Unknown" true
        false).state = ⟨true, false, ["League of Legends"]⟩) :=
  ⟨rfl, by decide,
   set_profile_unknown_fails_locally ⟨true, false, ["League of Legends"]⟩
     "Unknown" true false rfl (by decide)⟩

end OBSLeague
